import Mathlib

/-!
Verification of the TissueMAPS orchestration core against its design
specification.  Each section shallowly embeds one part of the source:

* `src/tmlib/workflow/jterator/api.py` — batch partitioning
  (`create_run_batches`), the pipeline builder (`pipeline`), the save
  phase (`_save_pipeline_outputs`), the aggregation phase
  (`_aggregate`, `_aggregate_aggregates`) and the feature-catalog
  upsert (`_add_feature`);
* `src/tmlib/tmaps/workflow.py` — the workflow state machine
  (`ClusterWorkflowManager._add_step`, `._create_jobs_for_step`,
  `.next`).

Machine integers are modelled as `Nat`/`Int`, feature values as `ℚ`,
database tables as explicit lists, and exceptions as `Except`/`Option`
error values.
-/

set_option autoImplicit false

namespace TissueMAPS

/-! ## Batch partitioning (`ImageAnalysisPipelineEngine.create_run_batches`)

`create_run_batches` (api.py lines 177–215) checks the plot/batch-size
constraint, queries the site ids ordered by id, chunks them with the
inherited helper `_create_batches`, and yields one job description per
chunk with a one-based `id`.
-/

/-- Errors raised by the jterator step API (tmlib.errors). -/
inductive JtError where
  | jobDescriptionError (msg : String)
  | pipelineDescriptionError (msg : String)
  deriving DecidableEq, Repr

/-- The step-specific batch arguments used by `create_run_batches`
(`args.plot` and `args.batch_size`). -/
structure BatchArguments where
  plot : Bool
  batch_size : Nat
  deriving DecidableEq, Repr

/-- Recursion worker for `create_batches`.  The `fuel` argument only
bounds the recursion depth (it is initialised with the length of the
id list, which always suffices); it makes the definition structurally
recursive so that concrete instances evaluate by `rfl`. -/
def create_batches_go : Nat → List Nat → Nat → List (List Nat)
  | _, [], _ => []
  | fuel + 1, x :: xs, batch_size =>
      (x :: xs.take (batch_size - 1)) ::
        create_batches_go fuel (xs.drop (batch_size - 1)) batch_size
  | 0, _ :: _, _ => []

/-- Modelled from the spec: `WorkflowStepAPI._create_batches` lives in
`tmlib/workflow/api.py`, which is not part of the provided sources.
Spec §4.2: "Splits `unit_ids` into contiguous groups of at most
`batch_size`, preserving the original ordering (stable,
deterministic)."  Each emitted group is the next `batch_size` ids of
the remaining sequence.  (Only `batch_size ≥ 1` is meaningful; this
model treats `batch_size = 0` like `1`.) -/
def create_batches (ids : List Nat) (batch_size : Nat) : List (List Nat) :=
  create_batches_go ids.length ids batch_size

/-- One job description yielded by `create_run_batches`:
`{'id': j + 1, 'site_ids': batch, 'plot': args.plot}`. -/
structure RunBatch where
  id : Nat
  site_ids : List Nat
  plot : Bool
  deriving DecidableEq, Repr

/-- `ImageAnalysisPipelineEngine.create_run_batches` (api.py 177–215).
`site_ids` stands for the site ids returned by the database query
(ordered by id).  If plotting is requested with a batch size other
than one, a `JobDescriptionError` is raised before any batch is
emitted; otherwise the site ids are chunked and each chunk becomes a
job description with a one-based id. -/
def create_run_batches (args : BatchArguments) (site_ids : List Nat) :
    Except JtError (List RunBatch) :=
  if args.plot ∧ args.batch_size ≠ 1 then
    .error (.jobDescriptionError "Batch size must be 1 when plotting is active.")
  else
    .ok ((create_batches site_ids args.batch_size).enum.map
      (fun jb => { id := jb.1 + 1, site_ids := jb.2, plot := args.plot }))

theorem create_batches_go_flatten (batch_size : Nat) :
    ∀ (fuel : Nat) (ids : List Nat), ids.length ≤ fuel →
      (create_batches_go fuel ids batch_size).flatten = ids := by
  intro fuel
  induction fuel with
  | zero =>
      intro ids h
      have hnil : ids = [] := List.length_eq_zero.mp (Nat.le_zero.mp h)
      subst hnil
      simp [create_batches_go]
  | succ fuel ih =>
      intro ids h
      match ids with
      | [] => simp [create_batches_go]
      | x :: xs =>
          rw [create_batches_go]
          simp only [List.flatten_cons]
          rw [ih (xs.drop (batch_size - 1))
            (by simp only [List.length_drop]
                simp only [List.length_cons] at h
                omega)]
          simp [List.take_append_drop]

theorem create_batches_flatten (ids : List Nat) (batch_size : Nat) :
    (create_batches ids batch_size).flatten = ids :=
  create_batches_go_flatten batch_size ids.length ids (Nat.le_refl _)

/-- C1: For every sequence of unit ids `U` and every batch size `b`,
the batches emitted by `create_run_batches` partition `U` exactly
(every unit id appears in exactly one batch, none duplicated or
dropped), preserve the original order of `U` within and across batches
(the concatenation of the emitted batches is exactly `U`), and carry
batch identifiers that start at 1 and increase by 1 in emission
order. -/
theorem create_run_batches_partition
    (args : BatchArguments) (site_ids : List Nat) (batches : List RunBatch)
    (_hb : 0 < args.batch_size)
    (h : create_run_batches args site_ids = .ok batches) :
    (batches.map RunBatch.site_ids).flatten = site_ids ∧
    batches.map RunBatch.id = (List.range batches.length).map (· + 1) := by
  unfold create_run_batches at h
  split at h
  · exact absurd h (by simp)
  · injection h with h
    subst h
    constructor
    · rw [List.map_map]
      rw [show (RunBatch.site_ids ∘
            fun jb : Nat × List Nat =>
              RunBatch.mk (jb.1 + 1) jb.2 args.plot) = Prod.snd from rfl]
      rw [List.enum_eq_enumFrom, List.enumFrom_map_snd]
      exact create_batches_flatten site_ids args.batch_size
    · rw [List.map_map]
      rw [show (RunBatch.id ∘
            fun jb : Nat × List Nat =>
              RunBatch.mk (jb.1 + 1) jb.2 args.plot) =
            ((fun x => x + 1) ∘ Prod.fst) from rfl]
      rw [← List.map_map]
      simp only [List.length_map, List.enum_eq_enumFrom, List.enumFrom_length,
        List.enumFrom_map_fst, List.range_eq_range']

/-- Closed witness for `create_run_batches_partition`: five sites with
batch size 2 yield batches `[10,20]`, `[30,40]`, `[50]` with ids
1, 2, 3. -/
theorem create_run_batches_partition_witness :
    (([⟨1, [10, 20], false⟩, ⟨2, [30, 40], false⟩, ⟨3, [50], false⟩] :
        List RunBatch).map RunBatch.site_ids).flatten = [10, 20, 30, 40, 50] ∧
    ([⟨1, [10, 20], false⟩, ⟨2, [30, 40], false⟩, ⟨3, [50], false⟩] :
        List RunBatch).map RunBatch.id =
      (List.range ([⟨1, [10, 20], false⟩, ⟨2, [30, 40], false⟩,
        ⟨3, [50], false⟩] : List RunBatch).length).map (· + 1) :=
  create_run_batches_partition ⟨false, 2⟩ [10, 20, 30, 40, 50]
    [⟨1, [10, 20], false⟩, ⟨2, [30, 40], false⟩, ⟨3, [50], false⟩]
    (by decide) (by rfl)

/-- C5: For every batch-creation request with the interactive-plotting
flag set and `batch_size ≠ 1`, `create_run_batches` fails with a
`JobDescriptionError` before emitting any batch; it never silently
clamps or coerces the batch size. -/
theorem create_run_batches_plot_constraint
    (args : BatchArguments) (site_ids : List Nat)
    (hplot : args.plot = true) (hbs : args.batch_size ≠ 1) :
    create_run_batches args site_ids =
      .error (.jobDescriptionError
        "Batch size must be 1 when plotting is active.") := by
  simp [create_run_batches, hplot, hbs]

/-- Closed witness for `create_run_batches_plot_constraint`:
plotting with batch size 2 is rejected. -/
theorem create_run_batches_plot_constraint_witness :
    create_run_batches ⟨true, 2⟩ [1, 2, 3] =
      .error (.jobDescriptionError
        "Batch size must be 1 when plotting is active.") :=
  create_run_batches_plot_constraint ⟨true, 2⟩ [1, 2, 3] rfl (by decide)

/-! ## Workflow state machine (`ClusterWorkflowManager`, workflow.py)

`_create_jobs_for_step` (lines 82–126) imports the step's CLI module,
checks that all `required_inputs` exist, runs the init method, records
`expected_outputs`, and builds the step's job collection.  `_add_step`
(lines 128–137) first re-checks the previous step's registered
expected outputs, then appends the new job collection to `tasks`.
`next` (lines 139–169) drives advancement and catches every
preparation exception.
-/

/-- `gc3libs.Run.State` values. -/
inductive RunState where
  | NEW
  | SUBMITTED
  | RUNNING
  | STOPPED
  | TERMINATING
  | TERMINATED
  | UNKNOWN
  deriving DecidableEq, Repr

/-- Exceptions that can escape step preparation.
`workflowNextStepError` models `tmlib.errors.WorkflowNextStepError`;
`otherError` models any other exception (import errors, parse errors,
errors inside the step's init method or job construction). -/
inductive WError where
  | workflowNextStepError (msg : String)
  | otherError (msg : String)
  deriving DecidableEq, Repr

/-- One parsed workflow step, as consumed by `_create_jobs_for_step`.
`required_inputs`, `expected_outputs` and `jobs` are the attributes of
the step's CLI instance; `load_error` models an exception raised while
importing/parsing the step (before the input check), `init_error` one
raised by the init method (after the input check, before
`expected_outputs` is recorded), and `jobs_error` one raised while
building the submit instance or its `jobs` property (after
`expected_outputs` is recorded).  `jobs` is the resulting job
collection, identified by a number. -/
structure StepSpec where
  required_inputs : List String
  expected_outputs : List String
  load_error : Option WError
  init_error : Option WError
  jobs_error : Option WError
  jobs : Nat
  deriving DecidableEq, Repr

/-- The mutable state of a `ClusterWorkflowManager`:
`workflow_description` (the parsed step commands), `tasks` (the
tracked job collections), `expected_outputs` (one entry per prepared
step), the private `__stopped` flag and `exitcode`. -/
structure WState where
  workflow_description : List StepSpec
  tasks : List Nat
  expected_outputs : List (List String)
  stopped : Bool
  exitcode : Option Int
  deriving DecidableEq, Repr

/-- `ClusterWorkflowManager._create_jobs_for_step` (workflow.py
82–126), with the filesystem modelled as the predicate `fs`.  Returns
the (possibly extended) `expected_outputs` list together with either
the step's job collection or the exception raised. -/
def create_jobs_for_step (fs : String → Bool) (eo : List (List String))
    (step : StepSpec) : List (List String) × Except WError Nat :=
  match step.load_error with
  | some e => (eo, .error e)
  | none =>
      -- "Check whether inputs of current step were produced upstream"
      if step.required_inputs.all fs then
        match step.init_error with
        | some e => (eo, .error e)
        | none =>
            -- "Store the expected outputs ..."
            let eo' := eo ++ [step.expected_outputs]
            match step.jobs_error with
            | some e => (eo', .error e)
            | none => (eo', .ok step.jobs)
      else (eo, .error (.workflowNextStepError "required inputs do not exist"))

/-- `ClusterWorkflowManager._add_step` (workflow.py 128–137).  Returns
the new state together with the exception raised, if any.  The Python
`self.expected_outputs[-1]` is modelled with `getLastD []` (the guard
is only reached with a nonempty list in every run of the manager). -/
def add_step (fs : String → Bool) (st : WState) (index : Nat) :
    WState × Option WError :=
  if 0 < index ∧ ¬ (st.expected_outputs.getLastD []).all fs then
    (st, some (.workflowNextStepError "outputs of previous step do not exist"))
  else
    match st.workflow_description[index]? with
    | none => (st, some (.otherError "workflow step index out of range"))
    | some step =>
        match create_jobs_for_step fs st.expected_outputs step with
        | (eo', .error e) => ({ st with expected_outputs := eo' }, some e)
        | (eo', .ok task) =>
            ({ st with
                expected_outputs := eo'
                tasks := st.tasks ++ [task] }, none)

/-- `ClusterWorkflowManager.next` (workflow.py 139–169).
`super_state` is the state returned by
`SequentialTaskCollection.next`, an external gc3libs collaborator
modelled as a parameter.  Returns the updated manager state and the
returned `Run.State`. -/
def workflow_next (fs : String → Bool) (super_state : RunState)
    (st : WState) (done : Nat) : WState × RunState :=
  if done + 1 < st.workflow_description.length then
    match add_step fs st (done + 1) with
    | (st1, some _) =>
        ({ st1 with exitcode := some 0 },
          if st1.stopped then .STOPPED else .TERMINATED)
    | (st1, none) =>
        if super_state = .TERMINATED then
          ({ st1 with exitcode := some 0 },
            if st1.stopped then .STOPPED else .TERMINATED)
        else (st1, super_state)
  else
    if super_state = .TERMINATED then
      ({ st with exitcode := some 0 },
        if st.stopped then .STOPPED else .TERMINATED)
    else (st, super_state)

theorem create_jobs_missing_inputs (fs : String → Bool)
    (eo : List (List String)) (step : StepSpec)
    (hload : step.load_error = none)
    (hB : ¬ step.required_inputs.all fs = true) :
    create_jobs_for_step fs eo step =
      (eo, .error (.workflowNextStepError "required inputs do not exist")) := by
  unfold create_jobs_for_step
  rw [hload]
  simp [hB]

/-- In every failing run of `_add_step` the task list, the stopped
flag and the workflow description are untouched. -/
theorem add_step_error_frame (fs : String → Bool) (st : WState)
    (index : Nat) (st1 : WState) (e : WError)
    (h : add_step fs st index = (st1, some e)) :
    st1.tasks = st.tasks ∧ st1.stopped = st.stopped := by
  unfold add_step at h
  split at h
  · injection h with h1 h2
    subst h1
    exact ⟨rfl, rfl⟩
  · split at h
    · injection h with h1 h2
      subst h1
      exact ⟨rfl, rfl⟩
    · split at h
      · injection h with h1 h2
        subst h1
        exact ⟨rfl, rfl⟩
      · injection h with h1 h2
        simp at h2

/-- C2: For every workflow and every step index `N+1` within range, if
any of the step's declared required inputs does not exist when the
step is prepared, or any of step `N`'s registered expected outputs is
missing, then preparation raises a `WorkflowNextStepError`,
advancement returns a terminal (aborted/terminated) state, and no job
collection for step `N+1` is appended to the tracked task list. -/
theorem workflow_missing_inputs_abort (fs : String → Bool)
    (super_state : RunState) (st : WState) (done : Nat) (step : StepSpec)
    (hlt : done + 1 < st.workflow_description.length)
    (hstep : st.workflow_description[done + 1]? = some step)
    (hload : step.load_error = none)
    (hmiss : ¬ (st.expected_outputs.getLastD []).all fs = true ∨
        ¬ step.required_inputs.all fs = true) :
    (∃ msg, (add_step fs st (done + 1)).2 =
        some (.workflowNextStepError msg)) ∧
    ((workflow_next fs super_state st done).2 = .TERMINATED ∨
      (workflow_next fs super_state st done).2 = .STOPPED) ∧
    (workflow_next fs super_state st done).1.tasks = st.tasks := by
  have hadd : ∃ msg, add_step fs st (done + 1) =
      (st, some (WError.workflowNextStepError msg)) := by
    by_cases hA : (st.expected_outputs.getLastD []).all fs = true
    · have hB : ¬ step.required_inputs.all fs = true := by
        rcases hmiss with h | h
        · exact absurd hA h
        · exact h
      refine ⟨"required inputs do not exist", ?_⟩
      unfold add_step
      rw [if_neg (fun hc => hc.2 hA)]
      simp only [hstep,
        create_jobs_missing_inputs fs st.expected_outputs step hload hB]
    · refine ⟨"outputs of previous step do not exist", ?_⟩
      unfold add_step
      rw [if_pos ⟨Nat.succ_pos done, hA⟩]
  obtain ⟨msg, hadd⟩ := hadd
  refine ⟨⟨msg, by rw [hadd]⟩, ?_, ?_⟩
  · unfold workflow_next
    rw [if_pos hlt, hadd]
    by_cases hs : st.stopped <;> simp [hs]
  · unfold workflow_next
    rw [if_pos hlt, hadd]

/-- Closed witness for `workflow_missing_inputs_abort`: a two-step
workflow where step 1's expected output `out1` exists but step 2's
required input `in2` does not. -/
theorem workflow_missing_inputs_abort_witness :
    (∃ msg, (add_step (fun s => s == "out1")
        ⟨[⟨[], ["out1"], none, none, none, 3⟩,
          ⟨["in2"], [], none, none, none, 4⟩], [3], [["out1"]],
          false, none⟩ 1).2 = some (.workflowNextStepError msg)) ∧
    ((workflow_next (fun s => s == "out1") .RUNNING
        ⟨[⟨[], ["out1"], none, none, none, 3⟩,
          ⟨["in2"], [], none, none, none, 4⟩], [3], [["out1"]],
          false, none⟩ 0).2 = .TERMINATED ∨
      (workflow_next (fun s => s == "out1") .RUNNING
        ⟨[⟨[], ["out1"], none, none, none, 3⟩,
          ⟨["in2"], [], none, none, none, 4⟩], [3], [["out1"]],
          false, none⟩ 0).2 = .STOPPED) ∧
    (workflow_next (fun s => s == "out1") .RUNNING
        ⟨[⟨[], ["out1"], none, none, none, 3⟩,
          ⟨["in2"], [], none, none, none, 4⟩], [3], [["out1"]],
          false, none⟩ 0).1.tasks = [3] :=
  workflow_missing_inputs_abort (fun s => s == "out1") .RUNNING
    ⟨[⟨[], ["out1"], none, none, none, 3⟩,
      ⟨["in2"], [], none, none, none, 4⟩], [3], [["out1"]], false, none⟩
    0 ⟨["in2"], [], none, none, none, 4⟩
    (by decide) (by rfl) (by rfl) (Or.inr (by decide))

/-- C3: For every exception raised during preparation of the next step
inside `next`, the state machine sets its exit code to zero and
returns a terminal state: `STOPPED` if the machine was externally
halted, else `TERMINATED`. -/
theorem workflow_prepare_exception_terminal (fs : String → Bool)
    (super_state : RunState) (st : WState) (done : Nat)
    (st1 : WState) (e : WError)
    (hlt : done + 1 < st.workflow_description.length)
    (herr : add_step fs st (done + 1) = (st1, some e)) :
    (workflow_next fs super_state st done).1.exitcode = some 0 ∧
    (workflow_next fs super_state st done).2 =
      (if st.stopped then RunState.STOPPED else RunState.TERMINATED) := by
  have hstop : st1.stopped = st.stopped :=
    (add_step_error_frame fs st (done + 1) st1 e herr).2
  unfold workflow_next
  rw [if_pos hlt, herr]
  refine ⟨rfl, ?_⟩
  show (if st1.stopped = true then RunState.STOPPED else RunState.TERMINATED) =
      (if st.stopped = true then RunState.STOPPED else RunState.TERMINATED)
  rw [hstop]

/-- Closed witness for `workflow_prepare_exception_terminal`: with no
file present, preparing step 2 fails and `next` returns `TERMINATED`
with exit code zero. -/
theorem workflow_prepare_exception_terminal_witness :
    (workflow_next (fun _ => false) .RUNNING
        ⟨[⟨[], ["out1"], none, none, none, 3⟩,
          ⟨[], [], none, none, none, 4⟩], [3], [["out1"]],
          false, none⟩ 0).1.exitcode = some 0 ∧
    (workflow_next (fun _ => false) .RUNNING
        ⟨[⟨[], ["out1"], none, none, none, 3⟩,
          ⟨[], [], none, none, none, 4⟩], [3], [["out1"]],
          false, none⟩ 0).2 =
      (if (⟨[⟨[], ["out1"], none, none, none, 3⟩,
          ⟨[], [], none, none, none, 4⟩], [3], [["out1"]],
          false, none⟩ : WState).stopped
        then RunState.STOPPED else RunState.TERMINATED) :=
  workflow_prepare_exception_terminal (fun _ => false) .RUNNING
    ⟨[⟨[], ["out1"], none, none, none, 3⟩,
      ⟨[], [], none, none, none, 4⟩], [3], [["out1"]], false, none⟩ 0
    ⟨[⟨[], ["out1"], none, none, none, 3⟩,
      ⟨[], [], none, none, none, 4⟩], [3], [["out1"]], false, none⟩
    (.workflowNextStepError "outputs of previous step do not exist")
    (by decide) (by rfl)

/-- C4 counterexample: a step-preparation failure (step 1's expected
output is missing) aborts the workflow, but the exit code is set to
zero — not a non-zero exit indication, contradicting the claim. -/
theorem workflow_abort_exitcode_counterexample :
    (add_step (fun _ => false)
        ⟨[⟨[], ["out1"], none, none, none, 3⟩,
          ⟨[], [], none, none, none, 4⟩], [3], [["out1"]],
          false, none⟩ 1).2 ≠ none ∧
    (workflow_next (fun _ => false) .RUNNING
        ⟨[⟨[], ["out1"], none, none, none, 3⟩,
          ⟨[], [], none, none, none, 4⟩], [3], [["out1"]],
          false, none⟩ 0).2 = .TERMINATED ∧
    (workflow_next (fun _ => false) .RUNNING
        ⟨[⟨[], ["out1"], none, none, none, 3⟩,
          ⟨[], [], none, none, none, 4⟩], [3], [["out1"]],
          false, none⟩ 0).1.exitcode = some 0 :=
  ⟨by decide, rfl, rfl⟩

/-- C4 (amended): for every step-level or workflow-level problem
during preparation of the next step, the entire workflow run is
aborted: advancement returns a terminal state (`TERMINATED` or
`STOPPED`), the failing step's job collection is not appended, and the
exit code is set to zero. -/
theorem workflow_problem_aborts_run (fs : String → Bool)
    (super_state : RunState) (st : WState) (done : Nat)
    (st1 : WState) (e : WError)
    (hlt : done + 1 < st.workflow_description.length)
    (herr : add_step fs st (done + 1) = (st1, some e)) :
    ((workflow_next fs super_state st done).2 = .TERMINATED ∨
      (workflow_next fs super_state st done).2 = .STOPPED) ∧
    (workflow_next fs super_state st done).1.tasks = st.tasks ∧
    (workflow_next fs super_state st done).1.exitcode = some 0 := by
  have hframe := add_step_error_frame fs st (done + 1) st1 e herr
  unfold workflow_next
  rw [if_pos hlt, herr]
  refine ⟨?_, hframe.1, rfl⟩
  by_cases hs : st1.stopped <;> simp [hs]

/-- Closed witness for `workflow_problem_aborts_run`. -/
theorem workflow_problem_aborts_run_witness :
    ((workflow_next (fun _ => false) .RUNNING
        ⟨[⟨[], ["out1"], none, none, none, 3⟩,
          ⟨[], [], none, none, none, 4⟩], [3], [["out1"]],
          false, none⟩ 0).2 = .TERMINATED ∨
      (workflow_next (fun _ => false) .RUNNING
        ⟨[⟨[], ["out1"], none, none, none, 3⟩,
          ⟨[], [], none, none, none, 4⟩], [3], [["out1"]],
          false, none⟩ 0).2 = .STOPPED) ∧
    (workflow_next (fun _ => false) .RUNNING
        ⟨[⟨[], ["out1"], none, none, none, 3⟩,
          ⟨[], [], none, none, none, 4⟩], [3], [["out1"]],
          false, none⟩ 0).1.tasks = [3] ∧
    (workflow_next (fun _ => false) .RUNNING
        ⟨[⟨[], ["out1"], none, none, none, 3⟩,
          ⟨[], [], none, none, none, 4⟩], [3], [["out1"]],
          false, none⟩ 0).1.exitcode = some 0 :=
  workflow_problem_aborts_run (fun _ => false) .RUNNING
    ⟨[⟨[], ["out1"], none, none, none, 3⟩,
      ⟨[], [], none, none, none, 4⟩], [3], [["out1"]], false, none⟩ 0
    ⟨[⟨[], ["out1"], none, none, none, 3⟩,
      ⟨[], [], none, none, none, 4⟩], [3], [["out1"]], false, none⟩
    (.workflowNextStepError "outputs of previous step do not exist")
    (by decide) (by rfl)

/-! ## Pipeline builder (`ImageAnalysisPipelineEngine.pipeline`, api.py 97–124)

The cached `pipeline` property iterates over the enumerated pipeline
description, skips elements whose `active` flag is unset, validates
module paths containing a slash against the filesystem, and pairs each
kept element with `self.project.handles[i]` — the handles entry at the
element's original (unfiltered) index `i`.
-/

/-- One element of `self.project.pipe.description.pipeline`. -/
structure PipelineElement where
  active : Bool
  source : String
  deriving DecidableEq, Repr

/-- One entry of `self.project.handles` (a name plus the parsed
handles description, kept abstract as a string payload). -/
structure HandlesItem where
  name : String
  description : String
  deriving DecidableEq, Repr

/-- A constructed `ImageAnalysisModule`. -/
structure PipelineModule where
  name : String
  source_file : String
  handles : String
  deriving DecidableEq, Repr

/-- The Python test `'/' in source_file`. -/
def has_slash (s : String) : Bool := s.contains '/'

/-- Recursion worker for `pipeline_property`: `i` is the enumeration
index.  `resolve` models the `expandvars`/`expanduser`/absolute-path
resolution applied to sources containing a slash, and `fs_exists`
models `os.path.exists`.  A missing handles entry (Python would raise
`IndexError` on `self.project.handles[i]`) is surfaced as an error. -/
def build_pipeline (resolve : String → String) (fs_exists : String → Bool) :
    Nat → List PipelineElement → List HandlesItem →
      Except JtError (List PipelineModule)
  | _, [], _ => .ok []
  | i, el :: rest, handles =>
      if el.active then
        let source_file :=
          if has_slash el.source then resolve el.source else el.source
        if has_slash el.source && ! fs_exists source_file then
          .error (.pipelineDescriptionError
            ("Module file does not exist: " ++ source_file))
        else
          match handles[i]? with
          | none => .error (.pipelineDescriptionError "IndexError: handles")
          | some h =>
              match build_pipeline resolve fs_exists (i + 1) rest handles with
              | .error e => .error e
              | .ok mods =>
                  .ok ({ name := h.name, source_file := source_file,
                          handles := h.description } :: mods)
      else build_pipeline resolve fs_exists (i + 1) rest handles

/-- `ImageAnalysisPipelineEngine.pipeline` (api.py 97–124). -/
def pipeline_property (resolve : String → String) (fs_exists : String → Bool)
    (pipe : List PipelineElement) (handles : List HandlesItem) :
    Except JtError (List PipelineModule) :=
  build_pipeline resolve fs_exists 0 pipe handles

theorem build_pipeline_zip (resolve : String → String)
    (fs_exists : String → Bool) (handles : List HandlesItem) :
    ∀ (rest : List PipelineElement) (i : Nat),
      i + rest.length ≤ handles.length →
      (∀ el ∈ rest, el.active = true → has_slash el.source = true →
        fs_exists (resolve el.source) = true) →
      build_pipeline resolve fs_exists i rest handles =
        .ok (((rest.zip (handles.drop i)).filter
            (fun p => p.1.active)).map
          (fun p =>
            { name := p.2.name,
              source_file :=
                if has_slash p.1.source then resolve p.1.source
                else p.1.source,
              handles := p.2.description })) := by
  intro rest
  induction rest with
  | nil => intro i hlen hok; simp [build_pipeline]
  | cons el rest ih =>
      intro i hlen hok
      have hi : i < handles.length := by
        simp only [List.length_cons] at hlen
        omega
      have hdrop : handles.drop i = handles[i] :: handles.drop (i + 1) :=
        List.drop_eq_getElem_cons hi
      have hrest := ih (i + 1)
        (by simp only [List.length_cons] at hlen; omega)
        (fun e he ha hs => hok e (List.mem_cons_of_mem el he) ha hs)
      rw [build_pipeline]
      by_cases hact : el.active = true
      · have hcond : (has_slash el.source &&
            ! fs_exists (if has_slash el.source then resolve el.source
              else el.source)) = false := by
          cases hs : has_slash el.source
          · simp
          · simp [hok el (List.mem_cons_self el rest) hact hs]
        rw [hact]
        simp only [if_true, hcond, Bool.false_eq_true, if_false,
          List.getElem?_eq_getElem hi, hrest]
        rw [hdrop, List.zip_cons_cons]
        simp [hact]
      · have hact' : el.active = false := by
          cases h : el.active
          · rfl
          · exact absurd h hact
        rw [hact']
        simp only [Bool.false_eq_true, if_false, hrest]
        rw [hdrop, List.zip_cons_cons]
        simp [hact']

/-- C10: For every pipeline description, the built pipeline contains
exactly the modules whose description element has the active flag set,
in their declared relative order; every element with active unset is
excluded, and each included module is paired with the handles
description at the element's original position in the full
(unfiltered) description list. -/
theorem pipeline_active_modules (resolve : String → String)
    (fs_exists : String → Bool) (pipe : List PipelineElement)
    (handles : List HandlesItem)
    (hlen : pipe.length ≤ handles.length)
    (hok : ∀ el ∈ pipe, el.active = true → has_slash el.source = true →
      fs_exists (resolve el.source) = true) :
    pipeline_property resolve fs_exists pipe handles =
      .ok (((pipe.zip handles).filter (fun p => p.1.active)).map
        (fun p =>
          { name := p.2.name,
            source_file :=
              if has_slash p.1.source then resolve p.1.source
              else p.1.source,
            handles := p.2.description })) := by
  have h := build_pipeline_zip resolve fs_exists handles pipe 0
    (by omega) hok
  simpa [pipeline_property] using h

/-- Closed witness for `pipeline_active_modules`: of three elements
the middle one is inactive; the two active ones are paired with the
handles entries at indices 0 and 2. -/
theorem pipeline_active_modules_witness :
    pipeline_property id (fun _ => true)
      [⟨true, "modA"⟩, ⟨false, "modB"⟩, ⟨true, "modC"⟩]
      [⟨"a", "ha"⟩, ⟨"b", "hb"⟩, ⟨"c", "hc"⟩] =
      .ok [{ name := "a", source_file := "modA", handles := "ha" },
           { name := "c", source_file := "modC", handles := "hc" }] := by
  have h := pipeline_active_modules id (fun _ => true)
    [⟨true, "modA"⟩, ⟨false, "modB"⟩, ⟨true, "modC"⟩]
    [⟨"a", "ha"⟩, ⟨"b", "hb"⟩, ⟨"c", "hc"⟩]
    (by decide) (by intro el _ _ _; rfl)
  simpa using h

/-! ## Aggregate feature naming (`ImageAnalysisPipelineEngine._aggregate`)

`_aggregate` (api.py 671–722) iterates a statistics table
`{'Min': np.nanmin, 'Max': np.nanmax, 'Sum': np.nansum,
'Mean': np.nanmean, 'Count': len}` over every feature column and names
each derived feature; a special case is meant to drop the feature
prefix for the count statistic, but it compares `stat_name` against
the lowercase string `'count'`.
-/

/-- The keys of the statistics dict of `_aggregate` (api.py 692–695). -/
def statistic_names : List String := ["Min", "Max", "Sum", "Mean", "Count"]

/-- The derived-feature naming of `_aggregate` (api.py 705–713):
`'{type}_{stat}'` when `stat_name == 'count'`, else
`'{name}_{type}_{stat}'`. -/
def agg_feature_name (feature_name mapobject_type_name stat_name : String) :
    String :=
  if stat_name = "count" then
    mapobject_type_name ++ "_" ++ stat_name
  else
    feature_name ++ "_" ++ mapobject_type_name ++ "_" ++ stat_name

/-- C6 (code evaluated at the failing input): the statistics table
contains the capitalised key `Count` and not `count`, so the
lowercase special case never fires: the count aggregate of feature
`Area` over leaf type `Cells` is named `Area_Cells_Count` and not
`Cells_Count` as the claim states. -/
theorem agg_feature_name_count_prefixed :
    "Count" ∈ statistic_names ∧
    "count" ∉ statistic_names ∧
    agg_feature_name "Area" "Cells" "Count" = "Area_Cells_Count" ∧
    agg_feature_name "Area" "Cells" "Count" ≠ "Cells_Count" := by
  refine ⟨by decide, by decide, rfl, by decide⟩

/-! ## Save-phase cascade delete (`_save_pipeline_outputs`, api.py 437–452)

For each output object type the code intends to skip the cascade
delete when the type was supplied as a pipeline input ("In case they
were passed to the pipeline as inputs don't delete them"), testing
`if obj_name not in inputs` where
`inputs = self.project.pipe.description.input.objects`.
-/

/-- An element of `description.input.objects`: a parsed
object-description record carrying a `name` attribute (read as
`obj.name` in `_load_pipeline_input`, api.py 310–313, so the elements
are records, not plain strings). -/
structure PipelineInputObjectDescription where
  name : String
  deriving DecidableEq, Repr

/-- Python equality between the `str` `obj_name` and one description
record, as evaluated element-wise by `obj_name not in inputs`
(api.py 443–444): `str.__eq__(record)` returns `NotImplemented`, the
record type defines no `__eq__` against strings, so the comparison
falls back to identity and is always false — a string is never the
same object as a description record. -/
def py_str_eq_desc (_s : String) (_o : PipelineInputObjectDescription) :
    Bool :=
  false

/-- The Python membership test `obj_name in inputs`. -/
def py_str_in_descs (s : String)
    (inputs : List PipelineInputObjectDescription) : Bool :=
  inputs.any (py_str_eq_desc s)

/-- The save-phase deletion decision of `_save_pipeline_outputs`
(api.py 437–452): the output object types for which
`tm.Mapobject.delete_cascade` is invoked, i.e. those with
`obj_name not in inputs`. -/
def cascade_deleted_types (output_names : List String)
    (inputs : List PipelineInputObjectDescription) : List String :=
  output_names.filter (fun n => ! py_str_in_descs n inputs)

/-- C7 (code evaluated at the failing input): the output type `Cells`
is also a declared input object (description record named `Cells`),
yet the save phase still cascade-deletes its prior segmentations —
for every input list the membership guard never fires, so every
output type is deleted. -/
theorem cascade_delete_ignores_inputs :
    cascade_deleted_types ["Cells"] [⟨"Cells"⟩] = ["Cells"] ∧
    (∀ (output_names : List String)
        (inputs : List PipelineInputObjectDescription),
      cascade_deleted_types output_names inputs = output_names) := by
  refine ⟨rfl, fun output_names inputs => ?_⟩
  simp [cascade_deleted_types, py_str_in_descs, py_str_eq_desc]

/-! ## Rounding of persisted feature values (C8)

`_save_pipeline_outputs` rounds each per-tpoint measurement frame with
`data.round(6)` (api.py 538–541) before building `FeatureValues`
records; `_aggregate` computes `np.round(func(vals.values), 6)`
(api.py 704), and `_aggregate_aggregates` applies the identical
expression (api.py 759).  Exact values are modelled as rationals;
numpy rounds ties to even.
-/

/-- Round to the nearest integer, ties to even, as numpy's `round`
does for scalars. -/
def round_half_even (q : ℚ) : ℤ :=
  let f := ⌊q⌋
  let r := q - f
  if r < 1 / 2 then f
  else if r > 1 / 2 then f + 1
  else if f % 2 = 0 then f else f + 1

/-- `np.round(x, 6)` / `DataFrame.round(6)` on one exact value. -/
def round6 (q : ℚ) : ℚ := (round_half_even (q * 1000000) : ℚ) / 1000000

/-- One row of a per-tpoint measurement frame: the object label (the
frame index, mapped to a mapobject id through `mapobject_ids`) and the
feature column values. -/
structure MeasurementRow where
  label : Nat
  vals : List (String × ℚ)
  deriving DecidableEq, Repr

/-- `data.round(6)` applied to one row. -/
def round_row (r : MeasurementRow) : MeasurementRow :=
  { r with vals := r.vals.map (fun p => (p.1, round6 p.2)) }

/-- The feature-value persistence loop of `_save_pipeline_outputs`
(api.py 538–562): for each time point `t` the frame is rounded to 6
decimals, empty frames are skipped with a warning, and one record
`(tpoint, label, values)` is built per row.  (The renaming of column
names through the feature-id lookup table only changes keys, not
values, and is left out.) -/
def build_feature_values (measurements : List (List MeasurementRow)) :
    List (Nat × Nat × List (String × ℚ)) :=
  measurements.enum.flatMap (fun td =>
    let data := td.2.map round_row
    if data.isEmpty then []
    else data.map (fun r => (td.1, r.label, r.vals)))

/-- The NaN-aware statistics of `_aggregate` on exact values (`Min`,
`Max`, `Sum`, `Mean`, and `Count` computed as `len`).  `nanmin`/
`nanmax` of an empty column is an error in numpy; the model returns 0
there. -/
def apply_statistic (stat : String) (vals : List ℚ) : ℚ :=
  if stat = "Min" then vals.foldr min (vals.headD 0)
  else if stat = "Max" then vals.foldr max (vals.headD 0)
  else if stat = "Sum" then vals.sum
  else if stat = "Mean" then vals.sum / vals.length
  else (vals.length : ℚ)

/-- The aggregate-value computation `np.round(func(vals.values), 6)`
of `_aggregate` (api.py 704; `_aggregate_aggregates` line 759 is the
identical expression). -/
def agg_value (stat : String) (vals : List ℚ) : ℚ :=
  round6 (apply_statistic stat vals)

theorem round6_example :
    round6 (123456789 / 100000000) = 1234568 / 1000000 := by
  unfold round6 round_half_even
  norm_num

/-- C8: every feature value written by the save phase is the input
value rounded to 6 decimal digits (each persisted record comes from an
input row by rounding its values), every aggregate value is
`round6` of the raw statistic by construction, and in particular
`1.23456789` is persisted as `1.234568` on both the leaf path and the
aggregate path. -/
theorem feature_values_rounded :
    (∀ (measurements : List (List MeasurementRow)) (t label : Nat)
        (vs : List (String × ℚ)),
      (t, label, vs) ∈ build_feature_values measurements →
      ∃ data, measurements[t]? = some data ∧
        ∃ r ∈ data, r.label = label ∧
          vs = r.vals.map (fun p => (p.1, round6 p.2))) ∧
    round6 (123456789 / 100000000) = 1234568 / 1000000 ∧
    agg_value "Sum" [123456789 / 100000000] = 1234568 / 1000000 := by
  refine ⟨?_, round6_example, ?_⟩
  · intro measurements t label vs h
    unfold build_feature_values at h
    rw [List.mem_flatMap] at h
    obtain ⟨⟨i, data⟩, htd, hmem⟩ := h
    have hg : measurements[i]? = some data :=
      List.mem_enum_iff_getElem?.mp htd
    dsimp only at hmem
    split at hmem
    · exact absurd hmem (List.not_mem_nil _)
    · rw [List.mem_map] at hmem
      obtain ⟨r', hr', heq⟩ := hmem
      rw [List.mem_map] at hr'
      obtain ⟨r, hr, hrr⟩ := hr'
      obtain ⟨e1, e2, e3⟩ : i = t ∧ r'.label = label ∧ r'.vals = vs := by
        injection heq with e1 e2
        injection e2 with e2 e3
        exact ⟨e1, e2, e3⟩
      subst e1
      refine ⟨data, hg, r, hr, ?_, ?_⟩
      · rw [← e2, ← hrr]
        rfl
      · rw [← e3, ← hrr]
        rfl
  · show round6 (apply_statistic "Sum" [123456789 / 100000000]) =
      1234568 / 1000000
    have hs : apply_statistic "Sum" [123456789 / 100000000] =
        123456789 / 100000000 := by
      unfold apply_statistic
      norm_num
    rw [hs]
    exact round6_example

/-- Closed witness for `feature_values_rounded`: a single row with
feature `Area = 1.23456789` at time point 0 is persisted with value
`1.234568`. -/
theorem feature_values_rounded_witness :
    ∃ data,
      ([[⟨7, [("Area", (123456789 : ℚ) / 100000000)]⟩]] :
        List (List MeasurementRow))[0]? = some data ∧
      ∃ r ∈ data, r.label = 7 ∧
        [("Area", (1234568 : ℚ) / 1000000)] =
          r.vals.map (fun p => (p.1, round6 p.2)) :=
  feature_values_rounded.1
    [[⟨7, [("Area", (123456789 : ℚ) / 100000000)]⟩]] 0 7
    [("Area", (1234568 : ℚ) / 1000000)]
    (by simp [build_feature_values, round_row, round6_example])

/-! ## Feature-catalog upsert (`_add_feature`, api.py 891–916)

`_add_feature` issues `INSERT ... ON CONFLICT ON CONSTRAINT
features_name_mapobject_type_id_key DO NOTHING RETURNING id`; when no
row comes back (conflict with an existing `(name, mapobject_type_id)`
row) it SELECTs the existing id.
-/

/-- One row of the `features` table. -/
structure FeatureRow where
  id : Nat
  name : String
  mapobject_type_id : Nat
  is_aggregate : Bool
  deriving DecidableEq, Repr

/-- The `features` table; `next_id` models the serial id the database
assigns to the next inserted row. -/
structure FeatureTable where
  rows : List FeatureRow
  next_id : Nat
  deriving DecidableEq, Repr

/-- The unique-constraint key `(name, mapobject_type_id)`. -/
def feature_key_matches (name : String) (mtid : Nat) (r : FeatureRow) :
    Bool :=
  r.name == name && r.mapobject_type_id == mtid

/-- `_add_feature` (api.py 891–916): insert-if-absent, else look up
and reuse the existing id.  Returns the updated table and the id. -/
def add_feature (tbl : FeatureTable) (name : String) (mtid : Nat)
    (is_agg : Bool) : FeatureTable × Nat :=
  match tbl.rows.find? (feature_key_matches name mtid) with
  | some r => (tbl, r.id)
  | none =>
      ({ rows := tbl.rows ++ [⟨tbl.next_id, name, mtid, is_agg⟩],
         next_id := tbl.next_id + 1 }, tbl.next_id)

/-- Number of catalog rows with the given key. -/
def count_key (tbl : FeatureTable) (name : String) (mtid : Nat) : Nat :=
  (tbl.rows.filter (feature_key_matches name mtid)).length

/-- `k + 1` successive calls of `_add_feature` with the same
arguments, returning the last call's result. -/
def add_feature_iter :
    Nat → FeatureTable → String → Nat → Bool → FeatureTable × Nat
  | 0, tbl, name, mtid, agg => add_feature tbl name mtid agg
  | k + 1, tbl, name, mtid, agg =>
      add_feature (add_feature_iter k tbl name mtid agg).1 name mtid agg

theorem add_feature_stable (tbl : FeatureTable) (name : String)
    (mtid : Nat) (agg : Bool) :
    add_feature (add_feature tbl name mtid agg).1 name mtid agg =
      add_feature tbl name mtid agg := by
  unfold add_feature
  cases hf : tbl.rows.find? (feature_key_matches name mtid) with
  | some r => simp [hf]
  | none =>
      simp only [hf]
      have hnew : (tbl.rows ++
          [(⟨tbl.next_id, name, mtid, agg⟩ : FeatureRow)]).find?
            (feature_key_matches name mtid) =
          some ⟨tbl.next_id, name, mtid, agg⟩ := by
        rw [List.find?_append, hf]
        simp [feature_key_matches]
      simp [hnew]

/-- C9: `_add_feature` is idempotent: starting from a table satisfying
the unique constraint, after the first call there is exactly one
catalog row for the `(name, mapobject_type_id)` pair; when no row
existed the first call inserts a fresh row and returns the fresh id,
when one existed the table is unchanged; and any number of further
calls return the same table and the same feature id as the first. -/
theorem add_feature_idempotent (tbl : FeatureTable) (name : String)
    (mtid : Nat) (agg : Bool)
    (huniq : count_key tbl name mtid ≤ 1) :
    count_key (add_feature tbl name mtid agg).1 name mtid = 1 ∧
    (count_key tbl name mtid = 0 →
      (add_feature tbl name mtid agg).2 = tbl.next_id ∧
      (add_feature tbl name mtid agg).1.rows.length =
        tbl.rows.length + 1) ∧
    (count_key tbl name mtid = 1 →
      (add_feature tbl name mtid agg).1 = tbl) ∧
    (∀ k, add_feature_iter k tbl name mtid agg =
      add_feature tbl name mtid agg) := by
  have hiter : ∀ k, add_feature_iter k tbl name mtid agg =
      add_feature tbl name mtid agg := by
    intro k
    induction k with
    | zero => rfl
    | succ k ih =>
        rw [add_feature_iter, ih]
        exact add_feature_stable tbl name mtid agg
  cases hf : tbl.rows.find? (feature_key_matches name mtid) with
  | some r =>
      have hcnt : count_key tbl name mtid = 1 := by
        have hsome : ∃ x ∈ tbl.rows, feature_key_matches name mtid x :=
          ⟨r, List.mem_of_find?_eq_some hf, List.find?_some hf⟩
        have hpos : 0 < count_key tbl name mtid := by
          unfold count_key
          rcases hsome with ⟨x, hx, hpx⟩
          have : x ∈ tbl.rows.filter (feature_key_matches name mtid) :=
            List.mem_filter.mpr ⟨hx, hpx⟩
          exact List.length_pos.mpr (fun hnil => by simp [hnil] at this)
        omega
      refine ⟨?_, ?_, ?_, hiter⟩
      · unfold add_feature
        rw [hf]
        exact hcnt
      · intro h0; omega
      · intro _
        unfold add_feature
        rw [hf]
  | none =>
      have hcnt : count_key tbl name mtid = 0 := by
        unfold count_key
        have := List.find?_eq_none.mp hf
        simp only [List.length_eq_zero, List.filter_eq_nil_iff]
        intro a ha
        exact this a ha
      refine ⟨?_, ?_, ?_, hiter⟩
      · unfold add_feature count_key
        rw [hf]
        simp only [List.filter_append]
        have h1 : tbl.rows.filter (feature_key_matches name mtid) = [] := by
          unfold count_key at hcnt
          exact List.length_eq_zero.mp hcnt
        rw [h1]
        simp [feature_key_matches]
      · intro _
        unfold add_feature
        rw [hf]
        exact ⟨rfl, by simp⟩
      · intro h1; omega

/-- Closed witness for `add_feature_idempotent`: inserting
`Area_Cells_Count` for object type 2 into the empty catalog. -/
theorem add_feature_idempotent_witness :
    count_key (add_feature ⟨[], 0⟩ "Area_Cells_Count" 2 true).1
      "Area_Cells_Count" 2 = 1 ∧
    (count_key (⟨[], 0⟩ : FeatureTable) "Area_Cells_Count" 2 = 0 →
      (add_feature ⟨[], 0⟩ "Area_Cells_Count" 2 true).2 = 0 ∧
      (add_feature ⟨[], 0⟩ "Area_Cells_Count" 2 true).1.rows.length =
        ([] : List FeatureRow).length + 1) ∧
    (count_key (⟨[], 0⟩ : FeatureTable) "Area_Cells_Count" 2 = 1 →
      (add_feature ⟨[], 0⟩ "Area_Cells_Count" 2 true).1 = ⟨[], 0⟩) ∧
    (∀ k, add_feature_iter k ⟨[], 0⟩ "Area_Cells_Count" 2 true =
      add_feature ⟨[], 0⟩ "Area_Cells_Count" 2 true) :=
  add_feature_idempotent ⟨[], 0⟩ "Area_Cells_Count" 2 true (by decide)

end TissueMAPS
